import Mathlib

/-!
Verification of the core pipeline of `main.py` from the email-unsubscriber
repository: header decoding (`decode_field`), content extraction
(`get_content`), classification (`analyze_email`), unsubscribe-link
extraction (`get_unsubscribe_url`), the batch fetch loop of
`connect_to_email`, and the orchestration loop of `main`.

External collaborators (the IMAP session, the MIME parser producing the part
tree, `BeautifulSoup`'s HTML parsing producing the anchor sequence, the
per-charset byte decoders, and the browsing agent) are modelled as abstract
function parameters; the repository's own logic over their results is
embedded faithfully.
-/

set_option autoImplicit false

namespace EmailUnsub

/-- `listStartsWith n h` decides whether `n` is an initial segment of `h`
(character lists). -/
def listStartsWith : List Char → List Char → Bool
  | [], _ => true
  | _ :: _, [] => false
  | a :: as, b :: bs => a == b && listStartsWith as bs

/-- `listContainsSub n h` decides whether `n` occurs contiguously inside `h`,
the semantics of Python's `n in h` on strings, over character lists. -/
def listContainsSub (n : List Char) : List Char → Bool
  | [] => n.isEmpty
  | c :: rest => listStartsWith n (c :: rest) || listContainsSub n rest

/-- Python's substring test `needle in haystack`. -/
def substrIn (needle haystack : String) : Bool :=
  listContainsSub needle.data haystack.data

/-- Python's `s.lower()`, character-wise (ASCII letters are what the
pipeline's needles use). -/
def pyLower (s : String) : String :=
  String.mk (s.data.map Char.toLower)

/-- Python's `sep.join(parts)`. -/
def pyJoin (sep : String) : List String → String
  | [] => ""
  | [s] => s
  | s :: t :: rest => s ++ sep ++ pyJoin sep (t :: rest)

/-- Python's `str()` applied to an optional header value: `str(None)` is the
four-character string `"None"`. -/
def pyStr : Option String → String
  | none => "None"
  | some s => s

/-! ## Data model

`Email` mirrors the pydantic `Email` model of `main.py`. -/

structure Email where
  subject : String
  content : String
  from_address : String
deriving DecidableEq, Repr

/-- The result dictionary of `analyze_email`; only the `is_unwanted` entry is
ever produced or read. -/
structure AnalyzeResult where
  is_unwanted : Bool
deriving DecidableEq, Repr

/-- `analyze_email` from `main.py`: the message is unwanted exactly when
`"unsubscribe"` occurs in `email_msg.content.lower()`. -/
def analyze_email (email_msg : Email) : AnalyzeResult :=
  if substrIn "unsubscribe" (pyLower email_msg.content) then
    { is_unwanted := true }
  else
    { is_unwanted := false }

/-! ## Content extraction (`get_content`)

A MIME message is a tree: `is_multipart()` nodes carry an ordered list of
child parts; leaves carry an optional `Content-Disposition` header value, an
optional declared charset (`get_content_charset()`), and a byte payload
(already transfer-decoded, as `get_payload(decode=True)` yields).

Byte decoding (`payload.decode(charset)` / `payload.decode()`) is a library
collaborator, modelled as `dec : List Nat → Option String → Option String`
taking the payload bytes and the declared charset (`none` means the charset
was unspecified and the platform default is used); a `none` result models the
decode raising (e.g. `UnicodeDecodeError`). -/

inductive MessagePart where
  | leaf (disposition : Option String) (charset : Option String)
      (payload : List Nat)
  | multipart (parts : List MessagePart)

mutual

/-- `get_content` from `main.py`. Multipart: recurse over the children and
join with `"\n"`. Leaf: if `"attachment"` is not a substring of
`str(msg.get("Content-Disposition"))`, decode the payload with the declared
charset (platform default when unspecified) — a decode failure raises, which
the source does not catch, hence the `Except` error result; attachment
leaves contribute `""`. -/
def get_content (dec : List Nat → Option String → Option String) :
    MessagePart → Except Unit String
  | .multipart parts => do
    let cs ← get_content_list dec parts
    .ok (pyJoin "\n" cs)
  | .leaf disposition charset payload =>
    if substrIn "attachment" (pyStr disposition) then
      .ok ""
    else
      match dec payload charset with
      | some s => .ok s
      | none => .error ()

/-- The list comprehension `[get_content(part) for part in msg.get_payload()]`:
an exception from any element aborts the whole comprehension. -/
def get_content_list (dec : List Nat → Option String → Option String) :
    List MessagePart → Except Unit (List String)
  | [] => .ok []
  | p :: ps => do
    let c ← get_content dec p
    let cs ← get_content_list dec ps
    .ok (c :: cs)

end

mutual

/-- The spec's description of content extraction (§4.2 of the design):
attachment leaves contribute `""`, other leaves contribute their decoded
payload, internal nodes the newline-joined children, in order; a decoding
failure contributes `""` rather than aborting. Stated from the spec's words,
to be compared with `get_content`. -/
def extractContentSpec (dec : List Nat → Option String → Option String) :
    MessagePart → String
  | .multipart parts => pyJoin "\n" (extractContentSpecList dec parts)
  | .leaf disposition charset payload =>
    if substrIn "attachment" (pyStr disposition) then ""
    else (dec payload charset).getD ""

/-- Children's contributions, in original order (spec §4.2). -/
def extractContentSpecList (dec : List Nat → Option String → Option String) :
    List MessagePart → List String
  | [] => []
  | p :: ps => extractContentSpec dec p :: extractContentSpecList dec ps

end

mutual

/-- Every non-attachment leaf of the tree decodes successfully under `dec`. -/
def decodesOk (dec : List Nat → Option String → Option String) :
    MessagePart → Bool
  | .multipart parts => decodesOkList dec parts
  | .leaf disposition charset payload =>
    substrIn "attachment" (pyStr disposition) || (dec payload charset).isSome

/-- `decodesOk` over a list of parts. -/
def decodesOkList (dec : List Nat → Option String → Option String) :
    List MessagePart → Bool
  | [] => true
  | p :: ps => decodesOk dec p && decodesOkList dec ps

end

/-! ## Header decoding (`decode_field`)

`email.header.decode_header` splits a raw header field into segments; each is
either an already-decoded `str` fragment (paired with no encoding) or a bytes
fragment paired with its declared encoding (or none). That split is library
behaviour; `decode_field`'s own logic maps each bytes segment through
`part.decode(encoding or "utf-8")` and joins with `"".join`. The per-encoding
byte decoder is the collaborator `hdec : List Nat → String → String`. -/

inductive HeaderSegment where
  | strSeg (s : String)
  | bytesSeg (b : List Nat) (encoding : Option String)
deriving DecidableEq, Repr

/-- `decode_field` from `main.py`: decode each bytes segment with its declared
encoding, defaulting to `"utf-8"`, keep `str` segments as they are, and
concatenate with `"".join(field_parts)`. -/
def decode_field (hdec : List Nat → String → String)
    (field : List HeaderSegment) : String :=
  pyJoin "" (field.map fun seg =>
    match seg with
    | .strSeg s => s
    | .bytesSeg b encoding => hdec b (encoding.getD "utf-8"))

/-! ## Unsubscribe-link extraction (`get_unsubscribe_url`)

`BeautifulSoup(content, "html.parser").find_all("a")` is the HTML-parsing
collaborator: it turns the content string into the list of anchor elements in
document order, each with its visible inner text (`a_tag.text`) and an
optional `href` attribute. `a_tag["href"]` on an anchor with no `href` raises
`KeyError`; the `Except` error result models that raise. -/

structure Anchor where
  text : String
  href : Option String
deriving DecidableEq, Repr

/-- The candidate-collection loop of `get_unsubscribe_url`: for each anchor,
if `"unsubscribe"` occurs in `a_tag.text.lower()` then `a_tag["href"]` is
accessed (raising when absent, per Python's left-to-right `and`), and the
href is appended when it contains `"http"`. -/
def collectLinks : List Anchor → Except Unit (List String)
  | [] => .ok []
  | a :: rest =>
    if substrIn "unsubscribe" (pyLower a.text) then
      match a.href with
      | none => .error ()
      | some h =>
        if substrIn "http" h then do
          let ls ← collectLinks rest
          .ok (h :: ls)
        else
          collectLinks rest
    else
      collectLinks rest

/-- `get_unsubscribe_url` from `main.py`: parse the email's content into
anchors, collect candidate hrefs, and return `unsubscribe_links[-1]` when the
list is non-empty, else `None`. -/
def get_unsubscribe_url (parse : String → List Anchor)
    (email_content : Email) : Except Unit (Option String) := do
  let links ← collectLinks (parse email_content.content)
  if links.length > 0 then
    .ok links.getLast?
  else
    .ok none

/-- An anchor qualifies as an unsubscribe candidate: its lowered text contains
`"unsubscribe"` and its `href` attribute exists and contains `"http"`. -/
def qualifies (a : Anchor) : Bool :=
  substrIn "unsubscribe" (pyLower a.text) &&
    match a.href with
    | some h => substrIn "http" h
    | none => false

/-- No anchor in the list has `"unsubscribe"`-containing text while lacking an
`href` attribute, so the collection loop never raises. -/
def anchorsWellFormed (anchors : List Anchor) : Bool :=
  anchors.all fun a =>
    !(substrIn "unsubscribe" (pyLower a.text)) || a.href.isSome

/-! ## Batch fetch loop (`connect_to_email`)

The IMAP session and `email.message_from_bytes` are collaborators; what the
loop itself does per fetched message is: decode the subject and the from
address with `decode_field`, extract the content with `get_content`, and
build an `Email`. No exception handler surrounds the loop body, so a raise
from any message's `get_content` aborts the whole fetch. A fetched message is
modelled by its decoded-header segments and its parsed part tree. -/

structure RawMessage where
  subjectField : List HeaderSegment
  fromField : List HeaderSegment
  body : MessagePart

/-- The per-message loop of `connect_to_email`: build the `Email` list from
the fetched messages, propagating any raise from `get_content`. -/
def connect_to_email (hdec : List Nat → String → String)
    (dec : List Nat → Option String → Option String) :
    List RawMessage → Except Unit (List Email)
  | [] => .ok []
  | m :: ms => do
    let content ← get_content dec m.body
    let rest ← connect_to_email hdec dec ms
    .ok ({ subject := decode_field hdec m.subjectField
           content := content
           from_address := decode_field hdec m.fromField } :: rest)

/-! ## Orchestration (`main`)

The per-email loop of `main`, after `connect_to_email` has produced the
batch. `unsubscribe_from_email` (the browsing agent) is a collaborator
modelled by `attempt : String → Bool` (`false` means the call raised); the
`try/except` around it catches either way. `get_unsubscribe_url` is NOT
inside the `try`, so its raise propagates out of the loop. The
`if True:  # interact_with_user(email_msg)` branch is hardcoded and always
taken. -/

inductive Outcome where
  | done_dispatched (url : String) (dispatchOk : Bool)
  | skipped_no_url
  | skipped_not_unwanted
deriving DecidableEq, Repr

/-- One iteration of `main`'s loop for a single email. -/
def processOne (parse : String → List Anchor) (attempt : String → Bool)
    (email_msg : Email) : Except Unit Outcome :=
  if (analyze_email email_msg).is_unwanted then do
    let url ← get_unsubscribe_url parse email_msg
    match url with
    | some u => .ok (.done_dispatched u (attempt u))
    | none => .ok .skipped_no_url
  else
    .ok .skipped_not_unwanted

/-- The loop of `main` over the fetched batch: each email is processed in
order; an uncaught raise (from link extraction) aborts the remaining
iterations. -/
def mainLoop (parse : String → List Anchor) (attempt : String → Bool) :
    List Email → Except Unit (List Outcome)
  | [] => .ok []
  | e :: rest => do
    let o ← processOne parse attempt e
    let os ← mainLoop parse attempt rest
    .ok (o :: os)

/-! ## Concrete collaborator instances used in witnesses and counterexamples -/

/-- A byte decoder that maps each byte to the character with that code point,
for any (or no) declared charset; it never fails. -/
def byteDec : List Nat → Option String → Option String :=
  fun b _ => some (String.mk (b.map Char.ofNat))

/-- A per-encoding header byte decoder built the same way. -/
def strDec : List Nat → String → String :=
  fun b _ => String.mk (b.map Char.ofNat)

/-- A byte decoder that raises on any payload containing the byte `255`
(an invalid lead byte in UTF-8), and decodes like `byteDec` otherwise. -/
def fragileDec : List Nat → Option String → Option String :=
  fun b charset => if b.contains 255 then none else byteDec b charset

/-- A multipart message: an attachment leaf, then a nested multipart with a
text leaf (no disposition) and an inline leaf (no charset). -/
def demoTree : MessagePart :=
  .multipart
    [.leaf (some "attachment; filename=x.pdf") (some "utf-8") [80, 75],
     .multipart
       [.leaf none (some "utf-8") [104, 105],
        .leaf (some "inline") none [121, 111]]]

/-- A leaf whose payload `fragileDec` fails to decode. -/
def badLeaf : MessagePart := .leaf none (some "utf-8") [255]

/-- Three sibling leaves, the middle one failing to decode: "one", the bad
leaf, "three". -/
def c3Tree : MessagePart :=
  .multipart
    [.leaf none (some "utf-8") [111, 110, 101],
     badLeaf,
     .leaf none (some "utf-8") [116, 104, 114, 101, 101]]

/-- A fetched message with plain-ASCII headers and the given body. -/
def mkMsg (body : MessagePart) : RawMessage :=
  { subjectField := [.strSeg "subj"], fromField := [.strSeg "from"]
    body := body }

/-- A batch of three fetched messages whose second message's body contains
the failing part. -/
def c3Batch : List RawMessage :=
  [mkMsg (.leaf none none [97]), mkMsg c3Tree, mkMsg (.leaf none none [98])]

def c4C1 : String := "<a href=http://ok.example/u1>unsubscribe</a>"
def c4C2 : String := "<a>Unsubscribe</a>"
def c4C3 : String := "<a href=http://ok.example/u3>unsubscribe</a>"

/-- A concrete HTML-parsing collaborator for the three contents above: the
anchors `BeautifulSoup` would find, in document order. -/
def c4Parse : String → List Anchor := fun s =>
  if s = c4C1 then [{ text := "unsubscribe", href := some "http://ok.example/u1" }]
  else if s = c4C2 then [{ text := "Unsubscribe", href := none }]
  else if s = c4C3 then [{ text := "unsubscribe", href := some "http://ok.example/u3" }]
  else []

def c4E1 : Email := { subject := "s1", content := c4C1, from_address := "f1" }
def c4E2 : Email := { subject := "s2", content := c4C2, from_address := "f2" }
def c4E3 : Email := { subject := "s3", content := c4C3, from_address := "f3" }

/-- A browsing agent that always succeeds. -/
def okAttempt : String → Bool := fun _ => true

/-- A browsing agent that always raises. -/
def failAttempt : String → Bool := fun _ => false

/-- Parser for the C1 counterexample: a decoy unsubscribe anchor with no
`href`, followed by a fully qualifying anchor. -/
def c1Parse : String → List Anchor := fun _ =>
  [{ text := "please unsubscribe", href := none },
   { text := "unsubscribe now", href := some "http://x.example/u" }]

def c1Email : Email :=
  { subject := "s", content := "two unsubscribe anchors", from_address := "f" }

/-- Parser for the C1 witness: three qualifying anchors L1, L2, L3 in
document order. -/
def w1Parse : String → List Anchor := fun _ =>
  [{ text := "Unsubscribe L1", href := some "http://x.example/L1" },
   { text := "to unsubscribe click", href := some "https://x.example/L2" },
   { text := "UNSUBSCRIBE", href := some "http://x.example/L3" }]

def w1Email : Email :=
  { subject := "s", content := "three unsubscribe anchors", from_address := "f" }

/-- Parser for the C6 counterexample: a lone unsubscribe-text anchor with no
`href` attribute at all. -/
def c6Parse : String → List Anchor := fun _ =>
  [{ text := "Unsubscribe", href := none }]

def c6Email : Email :=
  { subject := "s", content := "<a>Unsubscribe</a>", from_address := "f" }

/-- Parser for the C6 witness: the spec's relative-link scenario — the only
unsubscribe anchor's target lacks the substring `"http"`. -/
def w6Parse : String → List Anchor := fun _ =>
  [{ text := "Unsubscribe", href := some "/relative/unsubscribe" }]

def w6Email : Email :=
  { subject := "s", content := "<a href=/relative/unsubscribe>Unsubscribe</a>"
    from_address := "f" }

/-- An email whose content does not mention unsubscribing. -/
def w9Wanted : Email :=
  { subject := "s", content := "hello friend", from_address := "f" }

/-- An email that mentions unsubscribing in plain text only, so that HTML
parsing yields no anchors. -/
def w9NoUrl : Email :=
  { subject := "s", content := "reply STOP to unsubscribe", from_address := "f" }

/-- A parser finding no anchors at all (non-HTML content). -/
def emptyParse : String → List Anchor := fun _ => []

/-! ## Helper lemmas -/

theorem listStartsWith_iff (n : List Char) :
    ∀ h : List Char, listStartsWith n h = true ↔ ∃ t, h = n ++ t := by
  induction n with
  | nil =>
    intro h
    simp [listStartsWith]
  | cons a as ih =>
    intro h
    cases h with
    | nil =>
      simp [listStartsWith]
    | cons b bs =>
      simp only [listStartsWith, Bool.and_eq_true, beq_iff_eq, ih bs]
      constructor
      · rintro ⟨rfl, t, rfl⟩
        exact ⟨t, rfl⟩
      · rintro ⟨t, ht⟩
        cases ht
        exact ⟨rfl, t, rfl⟩

theorem listContainsSub_iff (n : List Char) :
    ∀ h : List Char, listContainsSub n h = true ↔ ∃ l r, h = l ++ n ++ r := by
  intro h
  induction h with
  | nil =>
    simp only [listContainsSub, List.isEmpty_iff]
    constructor
    · rintro rfl
      exact ⟨[], [], rfl⟩
    · rintro ⟨l, r, hl⟩
      rcases List.append_eq_nil.mp hl.symm with ⟨hln, hrn⟩
      exact (List.append_eq_nil.mp hln).2
  | cons c rest ih =>
    simp only [listContainsSub, Bool.or_eq_true, listStartsWith_iff, ih]
    constructor
    · rintro (⟨t, ht⟩ | ⟨l, r, hl⟩)
      · exact ⟨[], t, by simpa using ht⟩
      · exact ⟨c :: l, r, by simp [hl]⟩
    · rintro ⟨l, r, hl⟩
      cases l with
      | nil =>
        left
        exact ⟨r, by simpa using hl⟩
      | cons x xs =>
        right
        simp only [List.cons_append] at hl
        obtain ⟨rfl, hrest⟩ := List.cons_eq_cons.mp hl
        exact ⟨xs, r, hrest⟩

theorem substrIn_iff (needle haystack : String) :
    substrIn needle haystack = true ↔
      ∃ l r, haystack.data = l ++ needle.data ++ r := by
  exact listContainsSub_iff needle.data haystack.data

/-- `"".join` over a cons: the head concatenated with the join of the tail. -/
theorem pyJoin_empty_cons (x : String) (xs : List String) :
    pyJoin "" (x :: xs) = x ++ pyJoin "" xs := by
  cases xs with
  | nil => simp [pyJoin]
  | cons y ys => simp [pyJoin]

mutual

theorem get_content_eq_spec (dec : List Nat → Option String → Option String) :
    ∀ t : MessagePart, decodesOk dec t = true →
      get_content dec t = .ok (extractContentSpec dec t)
  | .multipart parts, h => by
    simp only [get_content, extractContentSpec]
    rw [get_content_list_eq_spec dec parts (by simpa [decodesOk] using h)]
    rfl
  | .leaf disposition charset payload, h => by
    simp only [decodesOk, Bool.or_eq_true] at h
    simp only [get_content, extractContentSpec]
    rcases h with h | h
    · simp [h]
    · rcases Option.isSome_iff_exists.mp h with ⟨s, hs⟩
      by_cases hd : substrIn "attachment" (pyStr disposition) <;> simp [hd, hs]

theorem get_content_list_eq_spec
    (dec : List Nat → Option String → Option String) :
    ∀ ps : List MessagePart, decodesOkList dec ps = true →
      get_content_list dec ps = .ok (extractContentSpecList dec ps)
  | [], _ => rfl
  | p :: ps, h => by
    simp only [decodesOkList, Bool.and_eq_true] at h
    simp only [get_content_list, extractContentSpecList]
    rw [get_content_eq_spec dec p h.1, get_content_list_eq_spec dec ps h.2]
    rfl

end

/-- The hrefs collected by the loop are exactly the hrefs of the qualifying
anchors, in document order, provided no unsubscribe-text anchor lacks its
`href`. -/
theorem collectLinks_of_wellFormed :
    ∀ anchors : List Anchor, anchorsWellFormed anchors = true →
      collectLinks anchors =
        .ok (anchors.filterMap fun a => if qualifies a then a.href else none)
  | [], _ => rfl
  | a :: rest, h => by
    simp only [anchorsWellFormed, List.all_cons, Bool.and_eq_true,
      Bool.or_eq_true, Bool.not_eq_eq_eq_not, Bool.not_true] at h
    obtain ⟨ha, hrest⟩ := h
    have ih := collectLinks_of_wellFormed rest (by simpa [anchorsWellFormed]
      using hrest)
    by_cases htext : substrIn "unsubscribe" (pyLower a.text)
    · rcases ha with ha | ha
      · simp [htext] at ha
      · rcases Option.isSome_iff_exists.mp ha with ⟨u, hu⟩
        by_cases hhttp : substrIn "http" u
        · simp [collectLinks, htext, hu, hhttp, ih, List.filterMap_cons,
            qualifies, bind, Except.bind]
        · simp [collectLinks, htext, hu, hhttp, ih, List.filterMap_cons,
            qualifies]
    · simp [collectLinks, htext, ih, List.filterMap_cons, qualifies]

/-- If some anchor has unsubscribe text but no `href`, the collection loop
raises (`KeyError` on `a_tag["href"]`). -/
theorem collectLinks_err :
    ∀ anchors : List Anchor,
      (∃ a ∈ anchors, substrIn "unsubscribe" (pyLower a.text) = true ∧
        a.href = none) →
      collectLinks anchors = .error ()
  | [], h => by simp at h
  | a :: rest, h => by
    rcases h with ⟨b, hb, hbt, hbh⟩
    rcases List.mem_cons.mp hb with rfl | hb
    · simp [collectLinks, hbt, hbh]
    · have ih := collectLinks_err rest ⟨b, hb, hbt, hbh⟩
      by_cases htext : substrIn "unsubscribe" (pyLower a.text)
      · cases hh : a.href with
        | none => simp [collectLinks, htext, hh]
        | some u =>
          by_cases hhttp : substrIn "http" u <;>
            simp [collectLinks, htext, hh, hhttp, ih, bind, Except.bind]
      · simp [collectLinks, htext, ih]

/-- `unsubscribe_links[-1]`-selection as one expression: the branch on
`len(unsubscribe_links) > 0` collapses to `getLast?`. -/
theorem ite_length_getLast (links : List String) :
    (if links.length > 0 then
        (.ok links.getLast? : Except Unit (Option String))
      else .ok none) = .ok links.getLast? := by
  cases links <;> simp

/-- `get_unsubscribe_url` on well-formed anchor lists returns the last
qualifying anchor's href (or `none` when there is none). -/
theorem get_unsubscribe_url_of_wellFormed (parse : String → List Anchor)
    (e : Email) (h : anchorsWellFormed (parse e.content) = true) :
    get_unsubscribe_url parse e =
      .ok (((parse e.content).filterMap fun a =>
        if qualifies a then a.href else none).getLast?) := by
  simp only [get_unsubscribe_url, collectLinks_of_wellFormed _ h, bind, Except.bind]
  exact ite_length_getLast _

/-- `get_unsubscribe_url` raises when some anchor of the parsed content has
unsubscribe text but no `href`. -/
theorem get_unsubscribe_url_err (parse : String → List Anchor) (e : Email)
    (h : ∃ a ∈ parse e.content,
      substrIn "unsubscribe" (pyLower a.text) = true ∧ a.href = none) :
    get_unsubscribe_url parse e = .error () := by
  simp [get_unsubscribe_url, collectLinks_err _ h, bind, Except.bind]

/-- A not-unwanted email is processed without touching the parser or the
agent. -/
theorem processOne_not_unwanted (parse : String → List Anchor)
    (attempt : String → Bool) (e : Email)
    (h : (analyze_email e).is_unwanted = false) :
    processOne parse attempt e = .ok .skipped_not_unwanted := by
  simp [processOne, h]

/-- Unless link extraction raises, processing one email succeeds. -/
theorem processOne_isOk (parse : String → List Anchor)
    (attempt : String → Bool) (e : Email)
    (h : get_unsubscribe_url parse e ≠ .error ()) :
    ∃ o, processOne parse attempt e = .ok o := by
  by_cases hw : (analyze_email e).is_unwanted
  · cases hu : get_unsubscribe_url parse e with
    | error err => cases err; exact absurd hu h
    | ok r =>
      cases r with
      | none => exact ⟨.skipped_no_url, by simp [processOne, hw, hu,
          bind, Except.bind]⟩
      | some u => exact ⟨.done_dispatched u (attempt u),
          by simp [processOne, hw, hu, bind, Except.bind]⟩
  · exact ⟨.skipped_not_unwanted, by simp [processOne, hw]⟩

/-- A raise out of one email's processing aborts the loop of `main` wherever
that email sits in the batch. -/
theorem mainLoop_append_err (parse : String → List Anchor)
    (attempt : String → Bool) (e : Email)
    (he : processOne parse attempt e = .error ()) :
    ∀ pre post : List Email,
      mainLoop parse attempt (pre ++ e :: post) = .error ()
  | [], post => by simp [mainLoop, he, bind, Except.bind]
  | p :: pre, post => by
    have ih := mainLoop_append_err parse attempt e he pre post
    cases hp : processOne parse attempt p with
    | error err => cases err; simp [mainLoop, hp, bind, Except.bind]
    | ok o => simp [mainLoop, hp, ih, bind, Except.bind]

/-- When no email's link extraction raises, the loop of `main` completes the
whole batch, whatever the agent does. -/
theorem mainLoop_completes (parse : String → List Anchor)
    (attempt : String → Bool) :
    ∀ emails : List Email,
      (∀ e ∈ emails, get_unsubscribe_url parse e ≠ .error ()) →
      ∃ os, mainLoop parse attempt emails = .ok os ∧
        os.length = emails.length
  | [], _ => ⟨[], rfl, rfl⟩
  | e :: rest, h => by
    obtain ⟨o, ho⟩ := processOne_isOk parse attempt e
      (h e (List.mem_cons_self e rest))
    obtain ⟨os, hos, hlen⟩ := mainLoop_completes parse attempt rest
      (fun x hx => h x (List.mem_cons_of_mem e hx))
    exact ⟨o :: os, by simp [mainLoop, ho, hos, bind, Except.bind], by simp [hlen]⟩

/-- A decode failure in one part makes the whole comprehension raise wherever
that part sits among its siblings. -/
theorem get_content_list_append_err
    (dec : List Nat → Option String → Option String) (part : MessagePart)
    (hp : get_content dec part = .error ()) :
    ∀ pre post : List MessagePart,
      get_content_list dec (pre ++ part :: post) = .error ()
  | [], post => by simp [get_content_list, hp, bind, Except.bind]
  | q :: pre, post => by
    have ih := get_content_list_append_err dec part hp pre post
    cases hq : get_content dec q with
    | error err => cases err; simp [get_content_list, hq, bind, Except.bind]
    | ok c => simp [get_content_list, hq, ih, bind, Except.bind]

/-- A raise from one message's `get_content` aborts the whole fetch loop,
wherever the message sits in the batch. -/
theorem connect_to_email_append_err (hdec : List Nat → String → String)
    (dec : List Nat → Option String → Option String) (m : RawMessage)
    (hm : get_content dec m.body = .error ()) :
    ∀ pre post : List RawMessage,
      connect_to_email hdec dec (pre ++ m :: post) = .error ()
  | [], post => by simp [connect_to_email, hm, bind, Except.bind]
  | q :: pre, post => by
    have ih := connect_to_email_append_err hdec dec m hm pre post
    cases hq : get_content dec q.body with
    | error err => cases err; simp [connect_to_email, hq, bind, Except.bind]
    | ok c => simp [connect_to_email, hq, ih, bind, Except.bind]

/-! ## Claim theorems -/

/-- C1 (amended): for every content whose parsed anchors are well formed (no
anchor has unsubscribe-containing lowered text while lacking an `href`),
`get_unsubscribe_url` collects exactly the anchors whose lowered visible text
contains `"unsubscribe"` and whose `href` contains `"http"`, and returns the
last such anchor's href in document order (`none` when there are none). -/
theorem C1_last_qualifying_href (parse : String → List Anchor) (e : Email)
    (h : anchorsWellFormed (parse e.content) = true) :
    get_unsubscribe_url parse e =
      .ok (((parse e.content).filterMap fun a =>
        if qualifies a then a.href else none).getLast?) :=
  get_unsubscribe_url_of_wellFormed parse e h

/-- C1: for qualifying anchors [L1, L2, L3] the extractor returns L3. -/
theorem C1_witness :
    anchorsWellFormed (w1Parse w1Email.content) = true ∧
    get_unsubscribe_url w1Parse w1Email = .ok (some "http://x.example/L3") :=
  ⟨by decide,
   by rw [C1_last_qualifying_href w1Parse w1Email (by decide)]; rfl⟩

/-- C1 fails as stated: with a decoy unsubscribe anchor lacking `href` before
the single qualifying anchor, the function raises (`KeyError`) instead of
returning the qualifying anchor's href. -/
theorem C1_counterexample :
    (((c1Parse c1Email.content).filterMap fun a =>
      if qualifies a then a.href else none) = ["http://x.example/u"]) ∧
    get_unsubscribe_url c1Parse c1Email ≠ .ok (some "http://x.example/u") ∧
    get_unsubscribe_url c1Parse c1Email = .error () := by
  refine ⟨by decide, ?_, rfl⟩
  rw [show get_unsubscribe_url c1Parse c1Email = .error () from rfl]
  simp

/-- C2: `analyze_email` flags a message as unwanted exactly when its content,
case-insensitively, contains the substring `"unsubscribe"` — i.e. the lowered
content splits as some prefix, the needle, and some suffix. -/
theorem C2_unwanted_iff_contains_unsubscribe (e : Email) :
    (analyze_email e).is_unwanted = true ↔
      ∃ l r, (pyLower e.content).data = l ++ "unsubscribe".data ++ r := by
  rw [← substrIn_iff]
  unfold analyze_email
  by_cases h : substrIn "unsubscribe" (pyLower e.content) <;> simp [h]

/-- C3 fails as stated: `get_content` does not isolate a failing part — the
whole extraction raises instead of contributing `""` for the failing middle
sibling (the siblings decode to "one" and "three"), and in a three-message
batch whose second message contains the failing part, the fetch loop of
`connect_to_email` raises, so messages one and three are not processed at
all. -/
theorem C3_counterexample :
    get_content fragileDec c3Tree = .error () ∧
    get_content fragileDec c3Tree ≠ .ok "one\n\nthree" ∧
    connect_to_email strDec fragileDec c3Batch = .error () := by
  refine ⟨rfl, ?_, rfl⟩
  rw [show get_content fragileDec c3Tree = .error () from rfl]
  simp

/-- C3 (amended): a part whose payload fails to decode with its declared
character set makes `get_content` raise for the whole message, wherever the
part sits among its siblings; and a message whose body raises makes the
batch loop of `connect_to_email` raise, so no message of the batch is
returned. -/
theorem C3_decode_failure_propagates (hdec : List Nat → String → String)
    (dec : List Nat → Option String → Option String)
    (part : MessagePart) (pre post : List MessagePart)
    (m : RawMessage) (preM postM : List RawMessage)
    (hp : get_content dec part = .error ())
    (hm : get_content dec m.body = .error ()) :
    get_content dec (.multipart (pre ++ part :: post)) = .error () ∧
    connect_to_email hdec dec (preM ++ m :: postM) = .error () := by
  constructor
  · simp [get_content, get_content_list_append_err dec part hp pre post,
      bind, Except.bind]
  · exact connect_to_email_append_err hdec dec m hm preM postM

/-- C3: the amended behaviour at the concrete failing batch. -/
theorem C3_witness :
    get_content fragileDec badLeaf = .error () ∧
    get_content fragileDec (mkMsg c3Tree).body = .error () ∧
    (get_content fragileDec
        (.multipart ([.leaf none (some "utf-8") [111, 110, 101]] ++ badLeaf ::
          [.leaf none (some "utf-8") [116, 104, 114, 101, 101]])) = .error () ∧
      connect_to_email strDec fragileDec
        ([mkMsg (.leaf none none [97])] ++ mkMsg c3Tree ::
          [mkMsg (.leaf none none [98])]) = .error ()) :=
  ⟨rfl, rfl,
   C3_decode_failure_propagates strDec fragileDec badLeaf
     [.leaf none (some "utf-8") [111, 110, 101]]
     [.leaf none (some "utf-8") [116, 104, 114, 101, 101]]
     (mkMsg c3Tree) [mkMsg (.leaf none none [97])]
     [mkMsg (.leaf none none [98])] rfl rfl⟩

/-- C4 fails as stated: the batch [e1, e2, e3], where e2's only anchor has
unsubscribe text but no `href`, makes the loop of `main` raise — e2 is not
transitioned to Skipped and e3 is not processed, although e3 on its own
would be processed to completion. -/
theorem C4_counterexample :
    mainLoop c4Parse okAttempt [c4E1, c4E2, c4E3] = .error () ∧
    processOne c4Parse okAttempt c4E3 =
      .ok (.done_dispatched "http://ok.example/u3" true) :=
  ⟨rfl, rfl⟩

/-- C4 (amended): a qualifying-text anchor with no `href` makes link
extraction raise a detectable error for that message; the orchestrator does
NOT catch it — processing of that message errors and the loop of `main`
aborts wherever the message sits in the batch, so the remaining messages are
not processed. -/
theorem C4_missing_href_aborts_batch (parse : String → List Anchor)
    (attempt : String → Bool) (e : Email) (pre post : List Email)
    (h1 : (analyze_email e).is_unwanted = true)
    (h2 : ∃ a ∈ parse e.content,
      substrIn "unsubscribe" (pyLower a.text) = true ∧ a.href = none) :
    get_unsubscribe_url parse e = .error () ∧
    processOne parse attempt e = .error () ∧
    mainLoop parse attempt (pre ++ e :: post) = .error () := by
  have hu : get_unsubscribe_url parse e = .error () :=
    get_unsubscribe_url_err parse e h2
  have hp : processOne parse attempt e = .error () := by
    simp [processOne, h1, hu, bind, Except.bind]
  exact ⟨hu, hp, mainLoop_append_err parse attempt e hp pre post⟩

/-- C4: the amended behaviour at the concrete batch. -/
theorem C4_witness :
    (analyze_email c4E2).is_unwanted = true ∧
    (∃ a ∈ c4Parse c4E2.content,
      substrIn "unsubscribe" (pyLower a.text) = true ∧ a.href = none) ∧
    (get_unsubscribe_url c4Parse c4E2 = .error () ∧
      processOne c4Parse okAttempt c4E2 = .error () ∧
      mainLoop c4Parse okAttempt ([c4E1] ++ c4E2 :: [c4E3]) = .error ()) :=
  ⟨rfl, by decide,
   C4_missing_href_aborts_batch c4Parse okAttempt c4E2 [c4E1] [c4E3] rfl
     (by decide)⟩

/-- C5: `get_content` refines the spec's extraction: attachment leaves
contribute `""`, other leaves their decoded payload (declared charset,
platform default when unspecified), multipart nodes the newline-joined
children's contributions in original order — provided every non-attachment
leaf decodes, so no raise occurs. -/
theorem C5_content_extraction (dec : List Nat → Option String → Option String)
    (t : MessagePart) (h : decodesOk dec t = true) :
    get_content dec t = .ok (extractContentSpec dec t) :=
  get_content_eq_spec dec t h

/-- C5: on a tree with an attachment and a nested multipart, the extraction
skips the attachment payload and flattens depth-first in order. -/
theorem C5_witness :
    decodesOk byteDec demoTree = true ∧
    get_content byteDec demoTree = .ok (extractContentSpec byteDec demoTree) ∧
    extractContentSpec byteDec demoTree = "\nhi\nyo" :=
  ⟨rfl, C5_content_extraction byteDec demoTree rfl, by decide⟩

/-- C6 fails as stated: content whose only anchor has unsubscribe text but no
`href` attribute has zero qualifying anchors, yet `get_unsubscribe_url`
raises (`KeyError`) instead of returning `none`. -/
theorem C6_counterexample :
    (c6Parse c6Email.content).filter qualifies = [] ∧
    get_unsubscribe_url c6Parse c6Email = .error () :=
  ⟨by decide, rfl⟩

/-- C6 (amended): for content with zero qualifying anchors — none at all,
or only anchors whose `href` lacks `"http"` — `get_unsubscribe_url` returns
`none` without raising, provided no unsubscribe-text anchor lacks its `href`
attribute (such an anchor makes it raise instead). -/
theorem C6_no_candidates_returns_none (parse : String → List Anchor)
    (e : Email) (h1 : anchorsWellFormed (parse e.content) = true)
    (h2 : (parse e.content).all (fun a => !qualifies a) = true) :
    get_unsubscribe_url parse e = .ok none := by
  rw [get_unsubscribe_url_of_wellFormed parse e h1]
  have hnil : ((parse e.content).filterMap fun a =>
      if qualifies a then a.href else none) = [] := by
    refine List.filterMap_eq_nil_iff.mpr ?_
    intro a ha
    have hq : qualifies a = false := by
      simpa using List.all_eq_true.mp h2 a ha
    simp [hq]
  rw [hnil]
  rfl

/-- C6: the spec's relative-link scenario — the only unsubscribe anchor's
target lacks `"http"`, so no link is found and nothing raises. -/
theorem C6_witness :
    anchorsWellFormed (w6Parse w6Email.content) = true ∧
    (w6Parse w6Email.content).all (fun a => !qualifies a) = true ∧
    get_unsubscribe_url w6Parse w6Email = .ok none :=
  ⟨by decide, by decide,
   C6_no_candidates_returns_none w6Parse w6Email (by decide) (by decide)⟩

/-- C7: `decode_field` decodes each bytes segment with its declared encoding
(defaulting to `"utf-8"` when none is declared), keeps plain segments as they
are, and concatenates all segments in original order with none dropped; a
plain-ASCII field with no encoded words decodes to itself unchanged. -/
theorem C7_decode_field_segments (hdec : List Nat → String → String)
    (s : String) (b : List Nat) (enc : String) (rest : List HeaderSegment) :
    decode_field hdec [] = "" ∧
    decode_field hdec (.strSeg s :: rest) = s ++ decode_field hdec rest ∧
    decode_field hdec (.bytesSeg b none :: rest) =
      hdec b "utf-8" ++ decode_field hdec rest ∧
    decode_field hdec (.bytesSeg b (some enc) :: rest) =
      hdec b enc ++ decode_field hdec rest ∧
    decode_field hdec [.strSeg s] = s := by
  refine ⟨by rfl, ?_, ?_, ?_, by rfl⟩ <;>
    simp [decode_field, pyJoin_empty_cons]

/-- C8: a raise from the browsing-agent dispatch is caught — the message
still completes with a dispatched outcome whatever the agent returns, and
the loop of `main` completes the whole batch (given link extraction itself
raises for none of the batch's messages). -/
theorem C8_dispatch_failure_nonfatal (parse : String → List Anchor)
    (attempt : String → Bool) (e : Email) (u : String) (emails : List Email)
    (h1 : (analyze_email e).is_unwanted = true)
    (h2 : get_unsubscribe_url parse e = .ok (some u))
    (h3 : ∀ x ∈ emails, get_unsubscribe_url parse x ≠ .error ()) :
    processOne parse attempt e = .ok (.done_dispatched u (attempt u)) ∧
    ∃ os, mainLoop parse attempt emails = .ok os ∧
      os.length = emails.length := by
  constructor
  · simp [processOne, h1, h2, bind, Except.bind]
  · exact mainLoop_completes parse attempt emails h3

/-- C8: with an agent that always raises, a two-message batch still
completes, and the first message's dispatch failure yields a completed
outcome. -/
theorem C8_witness :
    (analyze_email c4E1).is_unwanted = true ∧
    get_unsubscribe_url c4Parse c4E1 = .ok (some "http://ok.example/u1") ∧
    (∀ x ∈ [c4E1, c4E3], get_unsubscribe_url c4Parse x ≠ .error ()) ∧
    (processOne c4Parse failAttempt c4E1 =
        .ok (.done_dispatched "http://ok.example/u1" false) ∧
      ∃ os, mainLoop c4Parse failAttempt [c4E1, c4E3] = .ok os ∧
        os.length = 2) := by
  have h3 : ∀ x ∈ [c4E1, c4E3], get_unsubscribe_url c4Parse x ≠ .error () := by
    intro x hx
    rcases List.mem_cons.mp hx with rfl | hx
    · rw [show get_unsubscribe_url c4Parse c4E1 =
        .ok (some "http://ok.example/u1") from rfl]
      simp
    · rcases List.mem_singleton.mp hx with rfl
      rw [show get_unsubscribe_url c4Parse c4E3 =
        .ok (some "http://ok.example/u3") from rfl]
      simp
  exact ⟨rfl, rfl, h3,
    C8_dispatch_failure_nonfatal c4Parse failAttempt c4E1
      "http://ok.example/u1" [c4E1, c4E3] rfl rfl h3⟩

/-- C9: a message classified not-unwanted is skipped with an outcome
independent of both the parser and the agent (so neither link extraction nor
dispatch is invoked); an unwanted message whose extraction finds no URL is
skipped with an outcome independent of the agent (so dispatch is not
invoked). -/
theorem C9_skip_paths (e eU : Email)
    (parse parseAlt : String → List Anchor)
    (attempt attemptAlt : String → Bool)
    (h1 : (analyze_email e).is_unwanted = false)
    (h2 : (analyze_email eU).is_unwanted = true)
    (h3 : get_unsubscribe_url parse eU = .ok none) :
    processOne parse attempt e = .ok .skipped_not_unwanted ∧
    processOne parse attempt e = processOne parseAlt attemptAlt e ∧
    processOne parse attempt eU = .ok .skipped_no_url ∧
    processOne parse attempt eU = processOne parse attemptAlt eU := by
  refine ⟨processOne_not_unwanted parse attempt e h1, ?_, ?_, ?_⟩
  · rw [processOne_not_unwanted parse attempt e h1,
      processOne_not_unwanted parseAlt attemptAlt e h1]
  · simp [processOne, h2, h3, bind, Except.bind]
  · simp [processOne, h2, h3, bind, Except.bind]

/-- C9: the two skip paths at concrete emails, with the parser and agent
varied to exhibit independence. -/
theorem C9_witness :
    (analyze_email w9Wanted).is_unwanted = false ∧
    (analyze_email w9NoUrl).is_unwanted = true ∧
    get_unsubscribe_url emptyParse w9NoUrl = .ok none ∧
    (processOne emptyParse okAttempt w9Wanted = .ok .skipped_not_unwanted ∧
      processOne emptyParse okAttempt w9Wanted =
        processOne c4Parse failAttempt w9Wanted ∧
      processOne emptyParse okAttempt w9NoUrl = .ok .skipped_no_url ∧
      processOne emptyParse okAttempt w9NoUrl =
        processOne emptyParse failAttempt w9NoUrl) :=
  ⟨rfl, rfl, rfl,
   C9_skip_paths w9Wanted w9NoUrl emptyParse c4Parse okAttempt failAttempt
     rfl rfl rfl⟩

/-- C10: a leaf with no Content-Disposition header is treated as a
non-attachment — `str(None)` is `"None"`, which does not contain
`"attachment"` — so its decoded payload is contributed. -/
theorem C10_absent_disposition_not_attachment
    (dec : List Nat → Option String → Option String)
    (charset : Option String) (payload : List Nat) (s : String)
    (h : dec payload charset = some s) :
    substrIn "attachment" (pyStr none) = false ∧
    get_content dec (.leaf none charset payload) = .ok s := by
  refine ⟨rfl, ?_⟩
  simp only [get_content,
    show substrIn "attachment" (pyStr none) = false from rfl]
  simp [h]

/-- C10: the no-disposition leaf contributes its decoded text. -/
theorem C10_witness :
    byteDec [104, 105] none = some "hi" ∧
    (substrIn "attachment" (pyStr none) = false ∧
      get_content byteDec (.leaf none none [104, 105]) = .ok "hi") :=
  ⟨rfl, C10_absent_disposition_not_attachment byteDec none [104, 105] "hi" rfl⟩

end EmailUnsub
